import Mathlib

/-!
Verification of the sparse TF-IDF semantic search core
(backend/fastapi/services/semantic_search.py).

The embedding translates the Python source directly: floating point
arithmetic is modelled over the reals, numpy dense vectors of length
cols are modelled as functions from column index to value with all
reductions taken over Finset.range cols, the CSR matrix is the literal
quadruple of its arrays, and the try/except skeleton of semantic_search
is an Except-valued function with the stage outcomes as parameters
(loading performs file system reads that originate outside the model).
-/

namespace TedxSearch

/-- Python exception values, split by whether the exception is a
RuntimeError (the only class the loading stage of semantic_search
catches) or any other exception class. -/
inductive PyError where
  | runtimeError : String → PyError
  | otherError : String → PyError
deriving DecidableEq

/-- Whether the exception is (a subclass of) RuntimeError. -/
def PyError.isRuntimeError : PyError → Bool
  | .runtimeError _ => true
  | .otherError _ => false

/-- The str(e) rendering of the exception, as interpolated into the
wrapping messages of semantic_search. -/
def PyError.message : PyError → String
  | .runtimeError m => m
  | .otherError m => m

/-- Whitespace tokenization of a character list with an accumulator of
the current token in reverse: split on whitespace runs and drop empty
pieces, which is the behavior of str.split() with no arguments. -/
def splitTokens : List Char → List Char → List String
  | [], acc => if acc.isEmpty then [] else [⟨acc.reverse⟩]
  | c :: cs, acc =>
      if c.isWhitespace then
        (if acc.isEmpty then [] else [⟨acc.reverse⟩]) ++ splitTokens cs []
      else splitTokens cs (c :: acc)

/-- query.lower().split() from vectorize_query (line 92 of the source):
lower-case the query and split it on whitespace into tokens. -/
def pyTokens (query : String) : List String :=
  splitTokens (query.data.map Char.toLower) []

/-- vectorize_query (lines 87 to 105 of the source), viewed as the
mapping that the returned dict represents: the entry at column i exists
exactly when some query token maps to i in the vocabulary, and its
value is the token count times idf_values[i]. find? resolves which
token is used when several distinct tokens share a column; under the
bijective vocabulary of the data model at most one token maps to each
column, so the choice is immaterial there. -/
def vectorize_query (query : String) (vocabulary : String → Option ℕ)
    (idf_values : ℕ → ℝ) : ℕ → Option ℝ :=
  fun i =>
    match (pyTokens query).find? (fun t => vocabulary t == some i) with
    | some t => some (((pyTokens query).count t : ℝ) * idf_values i)
    | none => none

/-- The compressed sparse row matrix bundle loaded from tfidf_matrix.npz:
fields data, indices, indptr and shape = (rows, cols). -/
structure CSRMatrix where
  data : List ℝ
  indices : List ℕ
  indptr : List ℕ
  rows : ℕ
  cols : ℕ

/-- Sequential numpy fancy assignment v[idx] = vals (line 175 of the
source): elementwise assignment in order, a later duplicate index
overwrites an earlier one. -/
def assignAt (v : ℕ → ℝ) : List ℕ → List ℝ → (ℕ → ℝ)
  | i :: is, x :: xs => assignAt (Function.update v i x) is xs
  | _, _ => v

/-- Python slice a[s:e] on a list. -/
def pySlice {α : Type} (l : List α) (s e : ℕ) : List α :=
  (l.drop s).take (e - s)

/-- Dense expansion of matrix row i (lines 172 to 175 of the source):
start from np.zeros(cols) and assign the sliced data at the sliced
column indices. -/
def denseRow (m : CSRMatrix) (i : ℕ) : ℕ → ℝ :=
  assignAt (fun _ => 0)
    (pySlice m.indices (m.indptr.getD i 0) (m.indptr.getD (i + 1) 0))
    (pySlice m.data (m.indptr.getD i 0) (m.indptr.getD (i + 1) 0))

/-- Dense expansion of the sparse query vector (lines 164 to 167 of the
source): np.zeros(cols) overwritten at the dict keys. -/
def queryDense (qv : ℕ → Option ℝ) : ℕ → ℝ :=
  fun j => (qv j).getD 0

/-- np.dot of two length cols vectors. -/
noncomputable def npDot (cols : ℕ) (v w : ℕ → ℝ) : ℝ :=
  ∑ j ∈ Finset.range cols, v j * w j

/-- np.linalg.norm of a length cols vector: the square root of the sum
of squares. -/
noncomputable def npNorm (cols : ℕ) (v : ℕ → ℝ) : ℝ :=
  Real.sqrt (∑ j ∈ Finset.range cols, v j ^ 2)

/-- cosine_similarity_manual (lines 107 to 115 of the source): the dot
product over the product of norms when both norms are nonzero, and 0.0
otherwise. -/
noncomputable def cosine_similarity_manual (cols : ℕ) (vec1 vec2 : ℕ → ℝ) : ℝ :=
  if npNorm cols vec1 ≠ 0 ∧ npNorm cols vec2 ≠ 0 then
    npDot cols vec1 vec2 / (npNorm cols vec1 * npNorm cols vec2)
  else 0

/-- The score list of lines 170 to 179 of the source: one pair
(score, row index) per row, in row order. -/
noncomputable def cosineSimilarities (m : CSRMatrix) (q : ℕ → ℝ) : List (ℝ × ℕ) :=
  (List.range m.rows).map
    (fun i => (cosine_similarity_manual m.cols (denseRow m i) q, i))

/-- The comparator of the descending sort of line 187 of the source: a
precedes b when the score of b is at most the score of a. -/
def byScoreDesc (a b : ℝ × ℕ) : Prop := b.1 ≤ a.1

noncomputable instance : DecidableRel byScoreDesc :=
  fun a b => inferInstanceAs (Decidable (b.1 ≤ a.1))

instance : IsTotal (ℝ × ℕ) byScoreDesc := ⟨fun a b => le_total b.1 a.1⟩

instance : IsTrans (ℝ × ℕ) byScoreDesc :=
  ⟨fun _ _ _ h1 h2 => le_trans h2 h1⟩

/-- cosine_similarities.sort(reverse=True, key=lambda x: x[0]) at line
187 of the source: the CPython list sort is stable and reverse=True
keeps equal keys in their original order, so the call computes the
unique stable descending-by-score reordering; insertion sort with the
non-strict descending comparator computes exactly that reordering. -/
noncomputable def pySortDesc (l : List (ℝ × ℕ)) : List (ℝ × ℕ) :=
  l.insertionSort byScoreDesc

/-- Python slice l[:n] for an arbitrary integer n (line 188 of the
source): the first n entries when n is nonnegative, and all but the
last -n entries when n is negative. -/
def pyTakeInt {α : Type} (n : ℤ) (l : List α) : List α :=
  if 0 ≤ n then l.take n.toNat else l.take (l.length - (-n).toNat)

/-- The in-memory bundle returned by load_tfidf_components (lines 75 to
85 of the source), with the document records opaque of type α. -/
structure IndexBundle (α : Type) where
  matrix : CSRMatrix
  vocabulary : String → Option ℕ
  idf_values : ℕ → ℝ
  documents : List α

/-- Lines 150 to 203 of the source given a loaded bundle and a query
vector: score every row, sort descending by score, truncate with Python
slicing, and join each surviving row index to its document record. -/
noncomputable def scoreAndAssemble {α : Type} [Inhabited α] (b : IndexBundle α)
    (qv : ℕ → Option ℝ) (top_n : ℤ) : List (ℝ × α) :=
  (pyTakeInt top_n (pySortDesc (cosineSimilarities b.matrix (queryDense qv)))).map
    (fun p => (p.1, b.documents.getD p.2 default))

/-- The result sequence of semantic_search after a successful load:
vectorize the query, then score, sort, truncate and assemble. -/
noncomputable def searchResults {α : Type} [Inhabited α] (b : IndexBundle α)
    (query : String) (top_n : ℤ) : List (ℝ × α) :=
  scoreAndAssemble b (vectorize_query query b.vocabulary b.idf_values) top_n

/-- The try/except skeleton of semantic_search (lines 127 to 209 of the
source): the loading stage is guarded by an except clause for
RuntimeError only, while the vectorizing stage and the scoring plus
assembling stage are guarded by except clauses for Exception. The
vectorize and scoring handlers re-raise a RuntimeError whose message
names the failing stage and embeds str(e). The load handler does so
only when spanActive is false (the ImportError fallback tracer, whose
span is None): when a real span is active and truthy, line 138 of the
handler evaluates trace.Status with the name trace unimported in the
module, so the handler itself raises a NameError (modelled as an
otherError carrying the interpreter message, quotes elided) and the
stage-naming RuntimeError of line 139 is never reached. Stage outcomes
are parameters because loading performs file reads whose failures
originate outside this model. -/
def semantic_search_stages {β γ δ : Type} (spanActive : Bool)
    (loadResult : Except PyError β)
    (vecStage : β → Except PyError γ) (simStage : β → γ → Except PyError δ) :
    Except PyError δ :=
  match loadResult with
  | .error e =>
      if e.isRuntimeError then
        if spanActive then
          .error (.otherError "NameError: name trace is not defined")
        else
          .error (.runtimeError ("Semantic search failed: " ++ e.message))
      else
        .error e
  | .ok b =>
      match vecStage b with
      | .error e =>
          .error (.runtimeError ("Query vectorization failed: " ++ e.message))
      | .ok q =>
          match simStage b q with
          | .error e =>
              .error (.runtimeError ("Semantic search failed: " ++ e.message))
          | .ok r => .ok r

/-- semantic_search (lines 117 to 209 of the source) with the outcome of
load_tfidf_components and the truthiness of the active span as
parameters; in this embedding the pure stages cannot fail, so their
outcomes are always ok. -/
noncomputable def semantic_search {α : Type} [Inhabited α] (spanActive : Bool)
    (loadResult : Except PyError (IndexBundle α)) (query : String) (top_n : ℤ) :
    Except PyError (List (ℝ × α)) :=
  semantic_search_stages spanActive loadResult
    (fun b => .ok (vectorize_query query b.vocabulary b.idf_values))
    (fun b qv => .ok (scoreAndAssemble b qv top_n))

/-- The concrete vocabulary of the scenarios in the spec: apple at
column 0 and banana at column 1. -/
def vocabC : String → Option ℕ := fun s =>
  if s = "apple" then some 0 else if s = "banana" then some 1 else none

/-- The concrete idf vector [2.0, 3.0] of the scenarios in the spec. -/
noncomputable def idfC : ℕ → ℝ := fun i =>
  if i = 0 then 2 else if i = 1 then 3 else 0

/-- The concrete CSR matrix of the scenarios in the spec: three rows
over two columns with data [1,2,1,1], indices [0,1,0,1] and
indptr [0,1,2,4]. -/
noncomputable def matrixC : CSRMatrix :=
  ⟨[1, 2, 1, 1], [0, 1, 0, 1], [0, 1, 2, 4], 3, 2⟩

/-- The three opaque document records of the concrete scenarios. -/
def docsC : List String := ["doc0", "doc1", "doc2"]

/-- The concrete loaded index bundle of the scenarios in the spec. -/
noncomputable def bundleC : IndexBundle String :=
  ⟨matrixC, vocabC, idfC, docsC⟩


/-- The dense query vector of the ranking scenario, query apple apple. -/
noncomputable def queryC : ℕ → ℝ :=
  queryDense (vectorize_query "apple apple" vocabC idfC)

/-! Helper lemmas: concrete evaluations and stability of the sort. -/

lemma tokens_aa : pyTokens "apple apple" = ["apple", "apple"] := by decide

lemma qv_aa : vectorize_query "apple apple" vocabC idfC
    = fun i => if i = 0 then some 4 else none := by
  funext i
  unfold vectorize_query
  rw [tokens_aa]
  by_cases hi : i = 0
  · subst hi
    simp [vocabC, List.find?]
    norm_num [idfC]
  · have h0 : (0 == i) = false := by simpa using Ne.symm hi
    simp [vocabC, List.find?, hi, h0]

lemma queryC_eval : ∀ j, queryC j = if j = 0 then 4 else 0 := by
  intro j
  simp only [queryC, queryDense, qv_aa]
  by_cases hj : j = 0 <;> simp [hj]

lemma row0_eval : ∀ j, denseRow matrixC 0 j = if j = 0 then 1 else 0 := by
  intro j
  show assignAt (fun _ => 0) (pySlice [0,1,0,1] 0 1) (pySlice [1,2,1,1] 0 1) j = _
  simp [pySlice, assignAt, Function.update_apply]

lemma row1_eval : ∀ j, denseRow matrixC 1 j = if j = 1 then 2 else 0 := by
  intro j
  show assignAt (fun _ => 0) (pySlice [0,1,0,1] 1 2) (pySlice [1,2,1,1] 1 2) j = _
  simp [pySlice, assignAt, Function.update_apply]

lemma row2_eval : ∀ j, denseRow matrixC 2 j
    = if j = 0 then 1 else if j = 1 then 1 else 0 := by
  intro j
  show assignAt (fun _ => 0) (pySlice [0,1,0,1] 2 4) (pySlice [1,2,1,1] 2 4) j = _
  by_cases h0 : j = 0 <;> by_cases h1 : j = 1 <;>
    simp [pySlice, assignAt, Function.update_apply, h0, h1]

lemma sqrt2_sq : Real.sqrt 2 ^ 2 = 2 := Real.sq_sqrt (by norm_num)

lemma sqrt2_lo : (1.41421356 : ℝ) ≤ Real.sqrt 2 := by
  nlinarith [sqrt2_sq, Real.sqrt_nonneg 2]

lemma sqrt2_hi : Real.sqrt 2 ≤ 1.41421357 := by
  nlinarith [sqrt2_sq, Real.sqrt_nonneg 2]

lemma sqrt2_pos : (0:ℝ) < Real.sqrt 2 := Real.sqrt_pos.mpr (by norm_num)

lemma inv_sqrt2_eq : (Real.sqrt 2)⁻¹ = Real.sqrt 2 / 2 := by
  rw [eq_div_iff (two_ne_zero)]
  rw [inv_mul_eq_div, div_eq_iff (ne_of_gt sqrt2_pos)]
  nlinarith [sqrt2_sq]

lemma inv_sqrt2_pos : (0:ℝ) < (Real.sqrt 2)⁻¹ := inv_pos.mpr sqrt2_pos

lemma inv_sqrt2_le_one : (Real.sqrt 2)⁻¹ ≤ 1 := by
  rw [inv_sqrt2_eq]; linarith [sqrt2_hi]

lemma inv_sqrt2_near : |(Real.sqrt 2)⁻¹ - 0.70710678| ≤ 1e-8 := by
  rw [inv_sqrt2_eq, abs_le]
  constructor <;> [linarith [sqrt2_lo]; linarith [sqrt2_hi]]

lemma normQC : npNorm 2 queryC = 4 := by
  simp [npNorm, Finset.sum_range_succ, queryC_eval]

lemma cosA0 : cosine_similarity_manual matrixC.cols (denseRow matrixC 0) queryC = 1 := by
  show cosine_similarity_manual 2 (denseRow matrixC 0) queryC = 1
  have hn0 : npNorm 2 (denseRow matrixC 0) = 1 := by
    simp [npNorm, Finset.sum_range_succ, row0_eval]
  have hd : npDot 2 (denseRow matrixC 0) queryC = 4 := by
    simp [npDot, Finset.sum_range_succ, row0_eval, queryC_eval]
  rw [cosine_similarity_manual, if_pos ⟨by rw [hn0]; norm_num, by rw [normQC]; norm_num⟩,
    hd, hn0, normQC]
  norm_num

lemma cosA1 : cosine_similarity_manual matrixC.cols (denseRow matrixC 1) queryC = 0 := by
  show cosine_similarity_manual 2 (denseRow matrixC 1) queryC = 0
  have hn1 : npNorm 2 (denseRow matrixC 1) = 2 := by
    simp [npNorm, Finset.sum_range_succ, row1_eval]
  have hd : npDot 2 (denseRow matrixC 1) queryC = 0 := by
    simp [npDot, Finset.sum_range_succ, row1_eval, queryC_eval]
  rw [cosine_similarity_manual, if_pos ⟨by rw [hn1]; norm_num, by rw [normQC]; norm_num⟩, hd]
  norm_num

lemma cosA2 : cosine_similarity_manual matrixC.cols (denseRow matrixC 2) queryC
    = (Real.sqrt 2)⁻¹ := by
  show cosine_similarity_manual 2 (denseRow matrixC 2) queryC = (Real.sqrt 2)⁻¹
  have hn2 : npNorm 2 (denseRow matrixC 2) = Real.sqrt 2 := by
    norm_num [npNorm, Finset.sum_range_succ, row2_eval]
  have hd : npDot 2 (denseRow matrixC 2) queryC = 4 := by
    simp [npDot, Finset.sum_range_succ, row2_eval, queryC_eval]
  rw [cosine_similarity_manual,
    if_pos ⟨by rw [hn2]; exact ne_of_gt sqrt2_pos, by rw [normQC]; norm_num⟩,
    hd, hn2, normQC]
  field_simp
  ring

lemma simsC_eval : cosineSimilarities matrixC queryC
    = [(1, 0), (0, 1), ((Real.sqrt 2)⁻¹, 2)] := by
  show (List.range 3).map _ = _
  simp [List.range_succ, cosA0, cosA1, cosA2]

lemma sortC_eval :
    pySortDesc [(1, 0), (0, 1), ((Real.sqrt 2)⁻¹, 2)]
      = [(1, 0), ((Real.sqrt 2)⁻¹, 2), (0, 1)] := by
  have h1 : ¬ ((Real.sqrt 2)⁻¹ ≤ (0:ℝ)) := not_le.mpr inv_sqrt2_pos
  simp [pySortDesc, byScoreDesc, h1, inv_sqrt2_le_one]

lemma filter_orderedInsert_pos {α : Type} (r : α → α → Prop) [DecidableRel r]
    (p : α → Bool) (x : α) (hx : p x = true) (hall : ∀ y, p y = true → r x y) :
    ∀ l : List α, (l.orderedInsert r x).filter p = x :: l.filter p := by
  intro l
  induction l with
  | nil => simp [List.orderedInsert, hx]
  | cons b t ih =>
    by_cases hrb : r x b
    · rw [List.orderedInsert, if_pos hrb, List.filter_cons_of_pos hx]
    · have hpb : p b = false := by
        cases hpb : p b with
        | false => rfl
        | true => exact absurd (hall b hpb) hrb
      rw [List.orderedInsert, if_neg hrb, List.filter_cons_of_neg (by simp [hpb]), ih,
        List.filter_cons_of_neg (by simp [hpb])]

lemma filter_orderedInsert_neg {α : Type} (r : α → α → Prop) [DecidableRel r]
    (p : α → Bool) (x : α) (hx : p x = false) :
    ∀ l : List α, (l.orderedInsert r x).filter p = l.filter p := by
  intro l
  induction l with
  | nil => simp [List.orderedInsert, hx]
  | cons b t ih =>
    by_cases hrb : r x b
    · rw [List.orderedInsert, if_pos hrb, List.filter_cons_of_neg (by simp [hx])]
    · rw [List.orderedInsert, if_neg hrb]
      cases hpb : p b with
      | false =>
        rw [List.filter_cons_of_neg (by simp [hpb]), ih,
          List.filter_cons_of_neg (by simp [hpb])]
      | true =>
        rw [List.filter_cons_of_pos hpb, ih, List.filter_cons_of_pos hpb]

lemma filter_insertionSort_eq {α : Type} (r : α → α → Prop) [DecidableRel r]
    (p : α → Bool) (hties : ∀ a b, p a = true → p b = true → r a b) :
    ∀ l : List α, (l.insertionSort r).filter p = l.filter p := by
  intro l
  induction l with
  | nil => rfl
  | cons b t ih =>
    rw [List.insertionSort]
    cases hpb : p b with
    | true =>
      rw [filter_orderedInsert_pos r p b hpb (fun y hy => hties b y hpb hy), ih,
        List.filter_cons_of_pos hpb]
    | false =>
      rw [filter_orderedInsert_neg r p b hpb, ih, List.filter_cons_of_neg (by simp [hpb])]

lemma qv_zzz : vectorize_query "zzz" vocabC idfC = fun _ => none := by
  funext i
  unfold vectorize_query
  rw [show pyTokens "zzz" = ["zzz"] from rfl]
  simp [vocabC, List.find?]

lemma queryZ_eval : ∀ j, queryDense (vectorize_query "zzz" vocabC idfC) j = 0 := by
  intro j
  simp [queryDense, qv_zzz]

lemma normZ : npNorm 2 (queryDense (vectorize_query "zzz" vocabC idfC)) = 0 := by
  simp [npNorm, Finset.sum_range_succ, queryZ_eval]

lemma cosZ (i : ℕ) : cosine_similarity_manual matrixC.cols (denseRow matrixC i)
    (queryDense (vectorize_query "zzz" vocabC idfC)) = 0 := by
  show cosine_similarity_manual 2 _ _ = 0
  rw [cosine_similarity_manual, if_neg]
  intro h
  exact h.2 normZ

lemma simsZ : cosineSimilarities matrixC (queryDense (vectorize_query "zzz" vocabC idfC))
    = [(0, 0), (0, 1), (0, 2)] := by
  show (List.range 3).map _ = _
  simp [List.range_succ, cosZ]

lemma sortZ : pySortDesc [((0:ℝ), 0), (0, 1), (0, 2)] = [(0, 0), (0, 1), (0, 2)] := by
  simp [pySortDesc, byScoreDesc]

lemma length_pySortDesc (l : List (ℝ × ℕ)) : (pySortDesc l).length = l.length :=
  (List.perm_insertionSort byScoreDesc l).length_eq

lemma length_cosineSimilarities (m : CSRMatrix) (q : ℕ → ℝ) :
    (cosineSimilarities m q).length = m.rows := by
  simp [cosineSimilarities]

lemma vocabC_inj : ∀ t1 t2 i, vocabC t1 = some i → vocabC t2 = some i → t1 = t2 := by
  intro t1 t2 i h1 h2
  simp only [vocabC] at h1 h2
  split_ifs at h1 h2 <;> simp_all <;> omega

/-! Claim theorems. -/

/-- C1: on the concrete index with vocabulary apple to 0 and banana to 1,
idf [2.0, 3.0] and CSR rows with indptr [0,1,2,4] over shape (3,2), the
query apple apple vectorizes to the single entry 4.0 at column 0, the
per-row cosine similarities are 1.0, 0.0 and the inverse square root of
2 (which agrees with 0.70710678 to within 1e-8, hence with 1 over the
square root of 2 to within 1e-9), and the search with top_n = 2 returns
exactly the pair list of score 1.0 with doc0 followed by the inverse
square root of 2 with doc2, in that order. -/
theorem ranking_concrete_scenario :
    vectorize_query "apple apple" vocabC idfC = (fun i => if i = 0 then some 4 else none)
    ∧ cosine_similarity_manual matrixC.cols (denseRow matrixC 0) queryC = 1
    ∧ cosine_similarity_manual matrixC.cols (denseRow matrixC 1) queryC = 0
    ∧ cosine_similarity_manual matrixC.cols (denseRow matrixC 2) queryC = (Real.sqrt 2)⁻¹
    ∧ |(Real.sqrt 2)⁻¹ - 0.70710678| ≤ 1e-8
    ∧ searchResults bundleC "apple apple" 2 = [(1, "doc0"), ((Real.sqrt 2)⁻¹, "doc2")] := by
  refine ⟨qv_aa, cosA0, cosA1, cosA2, inv_sqrt2_near, ?_⟩
  show (pyTakeInt 2 (pySortDesc (cosineSimilarities matrixC queryC))).map
      (fun p => (p.1, bundleC.documents.getD p.2 default)) = _
  rw [simsC_eval, sortC_eval]
  simp [pyTakeInt, bundleC, docsC]

/-- C2 counterexample: two loading failures escape semantic_search with
a type other than the wrapping RuntimeError. First, a loading failure
whose exception class is not RuntimeError, such as the
FileNotFoundError raised by np.load on a missing artifact, propagates
with its original type in any configuration, because the loading stage
is guarded by an except clause for RuntimeError only. Second, with a
real truthy span active, even a RuntimeError loading failure escapes as
the NameError raised by line 138 of the handler itself, where the
unimported name trace is evaluated before the re-raise of line 139. -/
theorem load_error_escapes_unwrapped :
    semantic_search (α := String) false
        (.error (.otherError "FileNotFoundError")) "apple apple" 2
      = .error (.otherError "FileNotFoundError")
    ∧ semantic_search (α := String) true
        (.error (.runtimeError "corrupt artifact")) "apple apple" 2
      = .error (.otherError "NameError: name trace is not defined")
    ∧ (PyError.otherError "FileNotFoundError").isRuntimeError = false
    ∧ (PyError.otherError "NameError: name trace is not defined").isRuntimeError
        = false := ⟨rfl, rfl, rfl, rfl⟩

/-- C2 amended: failures in the vectorizing stage and in the combined
scoring and assembling stage are caught and re-raised as a RuntimeError
whose message names the failing stage and embeds str of the cause. A
loading failure is so wrapped only when it is already a RuntimeError
and no span is active (the ImportError fallback tracer whose span is
None): with an active span the load handler itself raises a NameError
at line 138, where the unimported name trace is evaluated, and a
loading failure of any other exception class escapes semantic_search
unwrapped with its original type in every configuration. No partial
result is ever returned, since a result is returned exactly when every
stage succeeded. -/
theorem error_wrapping_by_stage {β γ δ : Type} (sp : Bool) (lr : Except PyError β)
    (vec : β → Except PyError γ) (sim : β → γ → Except PyError δ) :
    (∀ e, lr = .error e → e.isRuntimeError = true → sp = false →
        semantic_search_stages sp lr vec sim
          = .error (.runtimeError ("Semantic search failed: " ++ e.message)))
    ∧ (∀ e, lr = .error e → e.isRuntimeError = true → sp = true →
        semantic_search_stages sp lr vec sim
          = .error (.otherError "NameError: name trace is not defined"))
    ∧ (∀ e, lr = .error e → e.isRuntimeError = false →
        semantic_search_stages sp lr vec sim = .error e)
    ∧ (∀ b e, lr = .ok b → vec b = .error e →
        semantic_search_stages sp lr vec sim
          = .error (.runtimeError ("Query vectorization failed: " ++ e.message)))
    ∧ (∀ b q e, lr = .ok b → vec b = .ok q → sim b q = .error e →
        semantic_search_stages sp lr vec sim
          = .error (.runtimeError ("Semantic search failed: " ++ e.message)))
    ∧ (∀ r, semantic_search_stages sp lr vec sim = .ok r →
        ∃ b q, lr = .ok b ∧ vec b = .ok q ∧ sim b q = .ok r) := by
  refine ⟨?_, ?_, ?_, ?_, ?_, ?_⟩
  · intro e he hrt hsp
    rw [he]
    simp [semantic_search_stages, hrt, hsp]
  · intro e he hrt hsp
    rw [he]
    simp [semantic_search_stages, hrt, hsp]
  · intro e he hrt
    rw [he]
    simp [semantic_search_stages, hrt]
  · intro b e hb hv
    rw [hb]
    simp [semantic_search_stages, hv]
  · intro b q e hb hv hs
    rw [hb]
    simp [semantic_search_stages, hv, hs]
  · intro r hr
    match hl : lr with
    | .error e =>
      by_cases hrt : e.isRuntimeError <;> by_cases hsp : sp <;>
        simp [semantic_search_stages, hrt, hsp] at hr
    | .ok b =>
      match hv : vec b with
      | .error e => simp [semantic_search_stages, hv] at hr
      | .ok q =>
        match hs : sim b q with
        | .error e => simp [semantic_search_stages, hv, hs] at hr
        | .ok r2 =>
          simp [semantic_search_stages, hv, hs] at hr
          exact ⟨b, q, rfl, hv, by rw [hs, hr]⟩

/-- C2 amended witness: with no active span, a RuntimeError loading
failure with message boom is re-raised as a RuntimeError naming the
search and embedding boom. -/
theorem error_wrapping_by_stage_witness :
    semantic_search_stages (β := Unit) (γ := Unit) (δ := Unit) false
        (.error (.runtimeError "boom")) (fun _ => .ok ()) (fun _ _ => .ok ())
      = .error (.runtimeError "Semantic search failed: boom") :=
  (error_wrapping_by_stage false (.error (.runtimeError "boom"))
    (fun _ => .ok ()) (fun _ _ => .ok ())).1 (.runtimeError "boom") rfl rfl rfl

/-- C3: for every loaded matrix, query vector and score value, the rows
that received that score appear in the sorted output in strictly
ascending row-index order, because the descending sort is stable with
respect to the original row order; and on the concrete index the
out-of-vocabulary query zzz yields scores [0.0, 0.0, 0.0] and, with
top_n = 2, the results doc0 then doc1 in row order. -/
theorem ties_preserve_row_order :
    (∀ (m : CSRMatrix) (q : ℕ → ℝ) (s : ℝ),
      List.Sorted (· < ·)
        (((pySortDesc (cosineSimilarities m q)).filter
            (fun x => decide (x.1 = s))).map Prod.snd))
    ∧ cosineSimilarities matrixC (queryDense (vectorize_query "zzz" vocabC idfC))
        = [(0, 0), (0, 1), (0, 2)]
    ∧ searchResults bundleC "zzz" 2 = [(0, "doc0"), (0, "doc1")] := by
  refine ⟨?_, simsZ, ?_⟩
  · intro m q s
    rw [pySortDesc, filter_insertionSort_eq byScoreDesc _
      (fun a b ha hb => by
        have ha2 := of_decide_eq_true ha
        have hb2 := of_decide_eq_true hb
        exact le_of_eq (hb2.trans ha2.symm))]
    unfold cosineSimilarities
    rw [List.filter_map, List.map_map]
    have hcomp : (Prod.snd ∘ fun i : ℕ =>
        (cosine_similarity_manual m.cols (denseRow m i) q, i)) = fun i => i := rfl
    rw [hcomp]
    exact ((List.pairwise_lt_range m.rows).filter _).imp (fun h => h) |>.map _ (by simp)
  · show (pyTakeInt 2 (pySortDesc (cosineSimilarities matrixC
        (queryDense (vectorize_query "zzz" vocabC idfC))))).map
        (fun p => (p.1, bundleC.documents.getD p.2 default)) = _
    rw [simsZ, sortZ]
    simp [pyTakeInt, bundleC, docsC]

/-- C4: whenever the 2-norm of either argument vector is exactly zero,
cosine_similarity_manual returns exactly 0.0: the guard fails, the
division branch is never taken, and no error or NaN can arise. -/
theorem cosine_zero_norm_is_zero (cols : ℕ) (v1 v2 : ℕ → ℝ)
    (h : npNorm cols v1 = 0 ∨ npNorm cols v2 = 0) :
    cosine_similarity_manual cols v1 v2 = 0 := by
  rw [cosine_similarity_manual, if_neg]
  rcases h with h | h <;> tauto

/-- C4 witness: the zero vector against a nonzero vector over one column
has cosine similarity exactly 0. -/
theorem cosine_zero_norm_is_zero_witness :
    cosine_similarity_manual 1 (fun _ => 0) (fun _ => 1) = 0 :=
  cosine_zero_norm_is_zero 1 (fun _ => 0) (fun _ => 1) (Or.inl (by simp [npNorm]))

/-- C5: for every loaded bundle, query, requested top_n and tracing
configuration, the results of semantic_search are the assembled
sequence, whose length is at most top_n and whose scores are pairwise
descending. -/
theorem results_length_le_topn_and_sorted {α : Type} [Inhabited α] (sp : Bool)
    (b : IndexBundle α) (query : String) (n : ℕ) :
    semantic_search sp (.ok b) query (n : ℤ) = .ok (searchResults b query (n : ℤ))
    ∧ (searchResults b query (n : ℤ)).length ≤ n
    ∧ List.Pairwise (fun x y : ℝ × α => y.1 ≤ x.1) (searchResults b query (n : ℤ)) := by
  refine ⟨rfl, ?_, ?_⟩
  · rw [searchResults, scoreAndAssemble, List.length_map, pyTakeInt,
      if_pos (by positivity : (0:ℤ) ≤ (n:ℤ))]
    calc (List.take (Int.toNat n) _).length ≤ (n:ℤ).toNat := by
          simp [List.length_take]
    _ = n := Int.toNat_natCast n
  · rw [searchResults, scoreAndAssemble]
    have hsorted : List.Pairwise byScoreDesc
        (pySortDesc (cosineSimilarities b.matrix
          (queryDense (vectorize_query query b.vocabulary b.idf_values)))) :=
      List.sorted_insertionSort byScoreDesc _
    have htake : List.Pairwise byScoreDesc
        (pyTakeInt (n:ℤ) (pySortDesc (cosineSimilarities b.matrix
          (queryDense (vectorize_query query b.vocabulary b.idf_values))))) := by
      rw [pyTakeInt]
      split
      · exact List.Pairwise.sublist (List.take_sublist _ _) hsorted
      · exact List.Pairwise.sublist (List.take_sublist _ _) hsorted
    exact htake.map _ (fun a b h => h)

/-- C6: when the requested top_n strictly exceeds the number of matrix
rows, semantic_search returns exactly one result per row: all rows, no
padding and no error. -/
theorem topn_exceeding_rows_returns_all {α : Type} [Inhabited α]
    (b : IndexBundle α) (query : String) (n : ℤ) (h : (b.matrix.rows : ℤ) < n) :
    (searchResults b query n).length = b.matrix.rows := by
  rw [searchResults, scoreAndAssemble, List.length_map, pyTakeInt,
    if_pos (le_of_lt (lt_of_le_of_lt (by positivity) h)), List.length_take,
    length_pySortDesc, length_cosineSimilarities]
  omega

/-- C6 witness: the concrete three-row index with top_n = 5 returns
exactly three results. -/
theorem topn_exceeding_rows_returns_all_witness :
    (searchResults bundleC "banana" 5).length = 3 :=
  topn_exceeding_rows_returns_all bundleC "banana" 5 (by decide)

/-- C7: for every vocabulary and idf vector the queries Apple apple and
apple APPLE produce identical query vectors, and for every vocabulary
that maps distinct terms to distinct columns (the bijectivity invariant
of the data model), permuting or re-casing the whitespace-separated
tokens of a query never changes the resulting query vector. -/
theorem vectorize_case_and_order_invariant :
    (∀ (vocab : String → Option ℕ) (idf : ℕ → ℝ),
        vectorize_query "Apple apple" vocab idf = vectorize_query "apple APPLE" vocab idf)
    ∧ ∀ (vocab : String → Option ℕ) (idf : ℕ → ℝ) (q1 q2 : String),
        (∀ t1 t2 i, vocab t1 = some i → vocab t2 = some i → t1 = t2) →
        (pyTokens q1).Perm (pyTokens q2) →
        vectorize_query q1 vocab idf = vectorize_query q2 vocab idf := by
  constructor
  · intro vocab idf
    have h : pyTokens "Apple apple" = pyTokens "apple APPLE" := by decide
    funext i
    unfold vectorize_query
    rw [h]
  · intro vocab idf q1 q2 hinj hperm
    funext i
    unfold vectorize_query
    cases hf1 : (pyTokens q1).find? (fun t => vocab t == some i) with
    | none =>
      have hf2 : (pyTokens q2).find? (fun t => vocab t == some i) = none := by
        rw [List.find?_eq_none] at hf1 ⊢
        intro x hx
        exact hf1 x (hperm.mem_iff.mpr hx)
      rw [hf2]
    | some t =>
      have hpt := List.find?_some hf1
      have hmem : t ∈ pyTokens q2 := hperm.mem_iff.mp (List.mem_of_find?_eq_some hf1)
      cases hf2 : (pyTokens q2).find? (fun t => vocab t == some i) with
      | none =>
        rw [List.find?_eq_none] at hf2
        exact absurd hpt (hf2 t hmem)
      | some t2 =>
        have hpt2 := List.find?_some hf2
        have ht : t2 = t := hinj t2 t i (eq_of_beq hpt2) (eq_of_beq hpt)
        rw [ht]
        simp [hperm.count_eq]

/-- C7 witness: on the concrete injective vocabulary, the queries apple
banana and banana apple produce identical query vectors. -/
theorem vectorize_case_and_order_invariant_witness :
    vectorize_query "apple banana" vocabC idfC
      = vectorize_query "banana apple" vocabC idfC :=
  vectorize_case_and_order_invariant.2 vocabC idfC "apple banana" "banana apple"
    vocabC_inj (by decide)

/-- C8: a query whose tokens are all absent from the vocabulary yields a
query vector with no entries and no error, and more generally a column
receives no entry unless some query token maps to it. -/
theorem oov_tokens_yield_empty_vector :
    (∀ (vocab : String → Option ℕ) (idf : ℕ → ℝ) (q : String),
        (∀ t ∈ pyTokens q, vocab t = none) →
        ∀ i, vectorize_query q vocab idf i = none)
    ∧ ∀ (vocab : String → Option ℕ) (idf : ℕ → ℝ) (q : String) (i : ℕ),
        (∀ t ∈ pyTokens q, vocab t ≠ some i) →
        vectorize_query q vocab idf i = none := by
  have main : ∀ (vocab : String → Option ℕ) (idf : ℕ → ℝ) (q : String) (i : ℕ),
      (∀ t ∈ pyTokens q, vocab t ≠ some i) →
      vectorize_query q vocab idf i = none := by
    intro vocab idf q i h
    unfold vectorize_query
    have hf : (pyTokens q).find? (fun t => vocab t == some i) = none := by
      rw [List.find?_eq_none]
      intro x hx
      simpa using h x hx
    rw [hf]
  exact ⟨fun vocab idf q h i => main vocab idf q i (fun t ht => by rw [h t ht]; simp),
    main⟩

/-- C8 witness: the query zzz qqq is entirely out of vocabulary, so its
query vector has no entry at column 0. -/
theorem oov_tokens_yield_empty_vector_witness :
    vectorize_query "zzz qqq" vocabC idfC 0 = none :=
  oov_tokens_yield_empty_vector.2 vocabC idfC "zzz qqq" 0 (by decide)

/-- C9: for every row whose CSR slice expands to a vector of strictly
positive 2-norm, the cosine similarity of that dense expansion with
itself is 1.0 to within 1e-9 (it is exactly 1). -/
theorem self_similarity_is_one (m : CSRMatrix) (i : ℕ)
    (h : 0 < npNorm m.cols (denseRow m i)) :
    |cosine_similarity_manual m.cols (denseRow m i) (denseRow m i) - 1| ≤ 1e-9 := by
  have hS : 0 < ∑ j ∈ Finset.range m.cols, (denseRow m i j) ^ 2 := by
    rw [npNorm] at h
    exact Real.sqrt_pos.mp h
  have hne : npNorm m.cols (denseRow m i) ≠ 0 := ne_of_gt h
  rw [cosine_similarity_manual, if_pos ⟨hne, hne⟩]
  have hdot : npDot m.cols (denseRow m i) (denseRow m i)
      = ∑ j ∈ Finset.range m.cols, (denseRow m i j) ^ 2 := by
    simp [npDot, sq]
  have hnorm : npNorm m.cols (denseRow m i) * npNorm m.cols (denseRow m i)
      = ∑ j ∈ Finset.range m.cols, (denseRow m i j) ^ 2 := by
    rw [npNorm]
    exact Real.mul_self_sqrt (Finset.sum_nonneg fun j _ => sq_nonneg _)
  rw [hdot, hnorm, div_self (ne_of_gt hS)]
  norm_num

/-- C9 witness: row 0 of the concrete matrix has norm 1, and its
self-similarity is 1 to within 1e-9. -/
theorem self_similarity_is_one_witness :
    |cosine_similarity_manual matrixC.cols (denseRow matrixC 0) (denseRow matrixC 0) - 1|
      ≤ 1e-9 :=
  self_similarity_is_one matrixC 0 (by
    show 0 < npNorm 2 (denseRow matrixC 0)
    have h1 : npNorm 2 (denseRow matrixC 0) = 1 := by
      simp [npNorm, Finset.sum_range_succ, row0_eval]
    rw [h1]
    norm_num)

/-- C10: with top_n = 0 semantic_search returns the empty sequence, and
with negative top_n = -k for 0 < k < rows it returns the first rows - k
entries of the score-sorted sequence, following Python slicing, with no
invalid-argument error. -/
theorem topn_zero_and_negative_slicing {α : Type} [Inhabited α]
    (b : IndexBundle α) (query : String) :
    searchResults b query 0 = []
    ∧ ∀ k : ℕ, 0 < k → k < b.matrix.rows →
        searchResults b query (-(k : ℤ)) =
          (searchResults b query (b.matrix.rows : ℤ)).take (b.matrix.rows - k) := by
  constructor
  · rw [searchResults, scoreAndAssemble, pyTakeInt, if_pos le_rfl]
    simp
  · intro k hk hkr
    have hlen : (pySortDesc (cosineSimilarities b.matrix
        (queryDense (vectorize_query query b.vocabulary b.idf_values)))).length
        = b.matrix.rows := by
      rw [length_pySortDesc, length_cosineSimilarities]
    have hLHS : searchResults b query (-(k : ℤ)) =
        ((pySortDesc (cosineSimilarities b.matrix
          (queryDense (vectorize_query query b.vocabulary b.idf_values)))).take
            (b.matrix.rows - k)).map
          (fun p => (p.1, b.documents.getD p.2 default)) := by
      rw [searchResults, scoreAndAssemble, pyTakeInt,
        if_neg (by omega : ¬ (0:ℤ) ≤ -(k:ℤ))]
      congr 2
      rw [hlen]
      omega
    have hRHS : searchResults b query ((b.matrix.rows : ℕ) : ℤ) =
        (pySortDesc (cosineSimilarities b.matrix
          (queryDense (vectorize_query query b.vocabulary b.idf_values)))).map
          (fun p => (p.1, b.documents.getD p.2 default)) := by
      rw [searchResults, scoreAndAssemble, pyTakeInt, if_pos (by positivity)]
      rw [List.take_of_length_le (by rw [hlen]; omega)]
    rw [hLHS, hRHS, ← List.map_take]

/-- C10 witness: on the concrete three-row index, top_n = -1 returns the
first two entries of the fully sorted result sequence. -/
theorem topn_zero_and_negative_slicing_witness :
    searchResults bundleC "banana banana" (-1) =
      (searchResults bundleC "banana banana" 3).take 2 :=
  (topn_zero_and_negative_slicing bundleC "banana banana").2 1 (by norm_num)
    (by show 1 < 3; norm_num)

end TedxSearch
